import Mathlib

/-!
Shallow embedding of the orbital propagation and risk-analysis engine of the
3d-earth-space-nasa-hack repository.

The repository calls satellite.js (SGP4 propagation, geodetic conversion) as an
external library; those calls are modelled as abstract inputs (an optional
geodetic altitude for a propagation attempt, an optional inertial position per
sample time).  Every definition below is translated from the TypeScript source:
  * classifyOrbitType      — SatelliteDashboard (src/unnamed/part_004, lines 76-129)
                             and useRealTimeSpaceData.ts (lines 67-92)
  * meteorRiskLevel        — MeteorTracker.tsx, calculateImpactRisks (lines 208-213)
  * debrisRiskLevel        — SpaceDebrisTracker.tsx, calculateCollisionRisks (lines 178-181)
  * calculateEarthImpactProbability, calculateSatelliteCollisionRisk
                           — MeteorTracker.tsx (lines 141-189)
  * calculateEarthImpactRisk — SpaceDebrisTracker.tsx (lines 105-140)
  * sampleTimes, detect, conjunctionsOf, runAnalysis
                           — computeTracksAndConjunctions (part_004 lines 273-344,
                             part_003 lines 119-184)
  * parseTLEs              — part_004 lines 200-231 / part_003 lines 62-83
-/

namespace SpaceHack

/-- Orbit regime returned by the classifier (LEO / MEO / GEO in the source). -/
inductive OrbitType where
  | LEO : OrbitType
  | MEO : OrbitType
  | GEO : OrbitType
deriving DecidableEq, Repr

/-- Translation of classifyOrbitType (src/unnamed/part_004, lines 76-129).
The external satellite.js pipeline propagate/gstime/eciToGeodetic is abstracted
into the optional altitude argument; meanMotion is the satrec.no field in
rad/min.  Primary path: altitude bands at 2000 km and 35000 km.  Fallback path
(no valid position): period = 2*pi/meanMotion minutes, bands at 200 and 1200
minutes, with the hard-coded placeholder altitudes 500 / 20000 / 35786 of the
source. -/
noncomputable def classifyOrbitType (alt : Option ℝ) (meanMotion : ℝ) : OrbitType × ℝ :=
  match alt with
  | some altKm =>
      if altKm < 2000 then (OrbitType.LEO, altKm)
      else if 2000 ≤ altKm ∧ altKm < 35000 then (OrbitType.MEO, altKm)
      else (OrbitType.GEO, altKm)
  | none =>
      let period := 2 * Real.pi / meanMotion
      if period < 200 then (OrbitType.LEO, 500)
      else if period < 1200 then (OrbitType.MEO, 20000)
      else (OrbitType.GEO, 35786)

/-- Discrete risk level shared by the UI components. -/
inductive RiskLevel where
  | LOW : RiskLevel
  | MEDIUM : RiskLevel
  | HIGH : RiskLevel
  | CRITICAL : RiskLevel
deriving DecidableEq, Repr

/-- Translation of the risk-level discretization of MeteorTracker.tsx,
calculateImpactRisks (lines 208-213): maxProb is max(earthProb, satelliteProb),
energyMegatons the estimated impact energy. -/
noncomputable def meteorRiskLevel (maxProb energyMegatons : ℝ) : RiskLevel :=
  if maxProb > 0.6 ∨ energyMegatons > 100 then RiskLevel.CRITICAL
  else if maxProb > 0.3 ∨ energyMegatons > 10 then RiskLevel.HIGH
  else if maxProb > 0.1 ∨ energyMegatons > 1 then RiskLevel.MEDIUM
  else RiskLevel.LOW

/-- Translation of the risk-level discretization of SpaceDebrisTracker.tsx,
calculateCollisionRisks (lines 178-181): thresholds on the pairwise collision
probability alone. -/
noncomputable def debrisRiskLevel (probability : ℝ) : RiskLevel :=
  if probability > 0.8 then RiskLevel.CRITICAL
  else if probability > 0.6 then RiskLevel.HIGH
  else if probability > 0.3 then RiskLevel.MEDIUM
  else RiskLevel.LOW

/-- Translation of calculateEarthImpactProbability (MeteorTracker.tsx, lines
141-164).  missDistanceAU is converted to km with 1 AU = 149597871 km; objects
passing beyond 10 Earth radii (6371 km each) get probability 0; otherwise the
distance fall-off max(0, 1 - d/critical) is scaled by the gravitational-focusing
factor 1 + log10(diameter + 0.1) * 0.1 and the velocity factor 1 + v/100; the
result is capped at 0.95 (Math.min).  Math.log10 is Real.logb 10. -/
noncomputable def calculateEarthImpactProbability
    (missDistanceAU diameterKm velocityKmS : ℝ) : ℝ :=
  let missDistanceKm := missDistanceAU * 149597871
  let earthRadius : ℝ := 6371
  let criticalDistance := earthRadius * 10
  let probability :=
    if missDistanceKm < criticalDistance then
      (max 0 (1 - missDistanceKm / criticalDistance))
        * (1 + Real.logb 10 (diameterKm + 0.1) * 0.1)
        * (1 + velocityKmS / 100)
    else 0
  min probability 0.95

/-- Translation of calculateSatelliteCollisionRisk (MeteorTracker.tsx, lines
167-189): within 50000 km of Earth the base risk 0.1 is scaled by 1 + diameter,
1 + v/50 and the fall-off max(0, 1 - d/50000), capped at 0.8; beyond 50000 km
the risk is 0. -/
noncomputable def calculateSatelliteCollisionRisk
    (missDistanceAU diameterKm velocityKmS : ℝ) : ℝ :=
  let missDistanceKm := missDistanceAU * 149597871
  if missDistanceKm < 50000 then
    min (0.1 * (1 + diameterKm) * (1 + velocityKmS / 50)
          * (max 0 (1 - missDistanceKm / 50000))) 0.8
  else 0

/-- Outcome of the satellite.js propagation attempt inside
calculateEarthImpactRisk: a valid position converted to a geodetic altitude, an
invalid position object (falls through to the final return 0.1), or a thrown
exception (the catch block returns 0.3). -/
inductive PropOutcome where
  | ok (altitude : ℝ) : PropOutcome
  | invalid : PropOutcome
  | thrown : PropOutcome

/-- Translation of calculateEarthImpactRisk (SpaceDebrisTracker.tsx, lines
105-140): banded altitude contribution (0.8 below 200 km, 0.6 below 400, 0.4
below 800, 0.2 below 1500, else 0), plus eccentricity * 0.3, plus
min(meanMotion * 0.001, 0.2), capped at 1.0; 0.3 on a thrown propagation, 0.1
when the propagated position is invalid. -/
noncomputable def calculateEarthImpactRisk
    (outcome : PropOutcome) (eccentricity meanMotion : ℝ) : ℝ :=
  match outcome with
  | PropOutcome.ok altitude =>
      let band : ℝ :=
        if altitude < 200 then 0.8
        else if altitude < 400 then 0.6
        else if altitude < 800 then 0.4
        else if altitude < 1500 then 0.2
        else 0
      min (band + eccentricity * 0.3 + min (meanMotion * 0.001) 0.2) 1
  | PropOutcome.invalid => 0.1
  | PropOutcome.thrown => 0.3

/-- Body of the sampling loop of computeTracksAndConjunctions (part_004 lines
286-288): for (let t = start; t <= end; t += step) samples.push(t), with times
in integer milliseconds.  The fuel argument bounds the number of iterations;
sampleTimes supplies enough fuel for every terminating run of the source loop
(step > 0), which is the only regime any theorem below relies on. -/
def sampleLoop : Nat → ℤ → ℤ → ℤ → List ℤ
  | 0, _, _, _ => []
  | fuel + 1, t, e, step => if t ≤ e then t :: sampleLoop fuel (t + step) e step else []

/-- Sample-timestamp generation of computeTracksAndConjunctions: start at now,
end at now + window, step by the sampling interval (all in ms).  For step > 0
the loop runs at most floor(window/step) + 1 times, which is the fuel passed. -/
def sampleTimes (start window step : ℤ) : List ℤ :=
  sampleLoop (window.toNat / step.toNat + 1) start (start + window) step

/-- Inertial-frame position vector in km, the [x, y, z] array returned by
propagateEci in the source. -/
abbrev Pos : Type := ℝ × ℝ × ℝ

/-- Euclidean distance of the pairwise loop (part_004 lines 324-327):
dx*dx + dy*dy + dz*dz under Math.sqrt. -/
noncomputable def dist3 (a b : Pos) : ℝ :=
  Real.sqrt ((a.1 - b.1) * (a.1 - b.1) + (a.2.1 - b.2.1) * (a.2.1 - b.2.1)
    + (a.2.2 - b.2.2) * (a.2.2 - b.2.2))

/-- Aligned per-index distances of one satellite pair: the source loops k over
0 ..< min(A.length, B.length), which List.zipWith realises. -/
noncomputable def alignedDists (A B : List Pos) : List ℝ :=
  List.zipWith dist3 A B

/-- Minimum-tracking loop of the pairwise search (part_004 lines 321-333).
The accumulator none models the initial minD = Infinity together with the null
minTime/minIdx (every finite d satisfies d < Infinity, so the first iteration
always replaces a none accumulator); some (m, i) carries the current minimum
and the sample index where it was attained.  The update keeps the earlier index
on ties, matching the strict d < minD of the source. -/
noncomputable def bestAux : List ℝ → Nat → Option (ℝ × Nat) → Option (ℝ × Nat)
  | [], _, acc => acc
  | d :: rest, k, acc =>
      let acc2 :=
        match acc with
        | none => some (d, k)
        | some (m, i) => if d < m then some (d, k) else some (m, i)
      bestAux rest (k + 1) acc2

/-- Pairwise conjunction test of computeTracksAndConjunctions (part_004 lines
315-342): run the minimum-tracking loop over the aligned distances; a record
(miss distance, sample index) is pushed only when minD < thresholdKm and
minTime is non-null, i.e. the accumulator left the Infinity state. -/
noncomputable def detect (A B : List Pos) (thresholdKm : ℝ) : Option (ℝ × Nat) :=
  match bestAux (alignedDists A B) 0 none with
  | none => none
  | some (m, i) => if m < thresholdKm then some (m, i) else none

/-- Double loop over unordered satellite pairs i < j (part_004 lines 313-344),
emitting the indices of the pair together with the detect record. -/
noncomputable def conjunctionsOf (tracks : List (List Pos)) (thresholdKm : ℝ) :
    List (Nat × Nat × ℝ × Nat) :=
  (List.range tracks.length).flatMap (fun i =>
    (List.range tracks.length).filterMap (fun j =>
      if i < j then
        match detect (tracks.getD i []) (tracks.getD j []) thresholdKm with
        | some (m, k) => some (i, j, m, k)
        | none => none
      else none))

/-- Whole-run model of computeTracksAndConjunctions (part_004 lines 273-344)
with now = 0: generate the sample timestamps, build each satellite's position
list by dropping failed propagations (propagateEci returning null is the none
case of the abstract propagate argument), then run the pairwise search.  The
source performs no validation of the window or step parameters and has no
error result: the function always returns the (samples, conjunctions) pair. -/
noncomputable def runAnalysis (propagate : Nat → ℤ → Option Pos) (satCount : Nat)
    (window step : ℤ) (thresholdKm : ℝ) : List ℤ × List (Nat × Nat × ℝ × Nat) :=
  let samples := sampleTimes 0 window step
  let tracks := (List.range satCount).map (fun i => samples.filterMap (propagate i))
  (samples, conjunctionsOf tracks thresholdKm)

/-- One trimmed, non-blank input line as parseTLEs observes it: the parser only
tests the prefixes of the two data-line kinds, so a line is abstracted to its
kind (starts with the line-1 prefix, starts with the line-2 prefix, or neither)
plus a payload id that stands for the full text and keeps distinct lines
distinguishable in the output records. -/
inductive TLELine where
  | nm (id : Nat) : TLELine
  | one (id : Nat) : TLELine
  | two (id : Nat) : TLELine
deriving DecidableEq, Repr

/-- Test lines[i].startsWith of the line-1 prefix. -/
def TLELine.isOne : TLELine → Bool
  | TLELine.one _ => true
  | _ => false

/-- Test lines[i].startsWith of the line-2 prefix. -/
def TLELine.isTwo : TLELine → Bool
  | TLELine.two _ => true
  | _ => false

/-- Raw element-set record pushed by parseTLEs: name is none in the bare
2-line layout, where the source synthesizes the placeholder name. -/
structure TLERec where
  name : Option TLELine
  l1 : TLELine
  l2 : TLELine
deriving DecidableEq, Repr

/-- Translation of parseTLEs (part_004 lines 200-231 / part_003 lines 62-83),
over the already trimmed and blank-filtered line list.  At offset i the source
first tries the bare 2-line layout: the guard (startsWith 1-prefix or
2-prefix) and i+1 < length followed by (lines[i] starts 1-prefix and lines[i+1]
starts 2-prefix) reduces to the single test isOne x && isTwo y once two lines
remain; then the 3-line layout needs i+2 < length with lines[i+1] starting the
1-prefix and lines[i+2] the 2-prefix; otherwise i advances by one and the line
is skipped. -/
def parseTLEs : List TLELine → List TLERec
  | [] => []
  | [_] => []
  | x :: y :: rest =>
      if x.isOne && y.isTwo then
        { name := none, l1 := x, l2 := y } :: parseTLEs rest
      else
        match rest with
        | z :: rest2 =>
            if y.isOne && z.isTwo then
              { name := some x, l1 := y, l2 := z } :: parseTLEs rest2
            else
              parseTLEs (y :: z :: rest2)
        | [] => []
termination_by lines => lines.length
decreasing_by
  all_goals simp_arith [List.length]

/-- Lines of one 3-line TLE group [name, line 1, line 2] as it appears in the
input text. -/
def tleGroupLines (g : TLELine × TLELine × TLELine) : List TLELine :=
  [g.1, g.2.1, g.2.2]

/-- Well-formedness of a 3-line group: its second line starts with the line-1
prefix and its third with the line-2 prefix; the name line is unconstrained. -/
def wellFormedGroup (g : TLELine × TLELine × TLELine) : Prop :=
  g.2.1.isOne = true ∧ g.2.2.isTwo = true

instance (g : TLELine × TLELine × TLELine) : Decidable (wellFormedGroup g) := by
  unfold wellFormedGroup
  infer_instance

/-!
Helper lemmas about the embedded definitions.
-/

lemma dist3_comm (a b : Pos) : dist3 a b = dist3 b a := by
  unfold dist3
  congr 1
  ring

lemma alignedDists_comm (A B : List Pos) : alignedDists A B = alignedDists B A :=
  List.zipWith_comm_of_comm dist3 dist3_comm A B

lemma bestAux_some_spec :
    ∀ (ds : List ℝ) (k : Nat) (a : ℝ) (ai : Nat),
      ∃ m i, bestAux ds k (some (a, ai)) = some (m, i) ∧ m ≤ a ∧
        (m = a ∨ m ∈ ds) ∧ ∀ d ∈ ds, m ≤ d := by
  intro ds
  induction ds with
  | nil =>
      intro k a ai
      exact ⟨a, ai, rfl, le_refl a, Or.inl rfl, by simp⟩
  | cons d rest ih =>
      intro k a ai
      by_cases hlt : d < a
      · obtain ⟨m, i, heq, hma, hmem, hall⟩ := ih (k + 1) d k
        refine ⟨m, i, ?_, ?_, ?_, ?_⟩
        · simpa [bestAux, hlt] using heq
        · linarith
        · rcases hmem with h | h
          · exact Or.inr (by simp [h])
          · exact Or.inr (by simp [h])
        · intro x hx
          rcases List.mem_cons.mp hx with rfl | hx'
          · exact hma
          · exact hall x hx'
      · obtain ⟨m, i, heq, hma, hmem, hall⟩ := ih (k + 1) a ai
        refine ⟨m, i, ?_, hma, ?_, ?_⟩
        · simpa [bestAux, hlt] using heq
        · rcases hmem with h | h
          · exact Or.inl h
          · exact Or.inr (by simp [h])
        · intro x hx
          rcases List.mem_cons.mp hx with rfl | hx'
          · push_neg at hlt
            linarith
          · exact hall x hx'

lemma bestAux_min (ds : List ℝ) (hne : ds ≠ []) :
    ∃ m i, bestAux ds 0 none = some (m, i) ∧ m ∈ ds ∧ ∀ d ∈ ds, m ≤ d := by
  match ds, hne with
  | d :: rest, _ =>
      obtain ⟨m, i, heq, hma, hmem, hall⟩ := bestAux_some_spec rest 1 d 0
      refine ⟨m, i, ?_, ?_, ?_⟩
      · simpa [bestAux] using heq
      · rcases hmem with h | h
        · simp [h]
        · simp [h]
      · intro x hx
        rcases List.mem_cons.mp hx with rfl | hx'
        · exact hma
        · exact hall x hx'

lemma detect_some_min (A B : List Pos) (t m : ℝ) (i : Nat)
    (hmi : detect A B t = some (m, i)) :
    m ∈ alignedDists A B ∧ (∀ d ∈ alignedDists A B, m ≤ d) ∧ m < t := by
  have hne : alignedDists A B ≠ [] := by
    intro hnil
    have hnone : detect A B t = none := by simp [detect, hnil, bestAux]
    rw [hnone] at hmi
    exact Option.noConfusion hmi
  obtain ⟨m1, i1, heq, hmem, hall⟩ := bestAux_min _ hne
  have hd : detect A B t = if m1 < t then some (m1, i1) else none := by
    simp [detect, heq]
  rw [hd] at hmi
  by_cases hlt : m1 < t
  · rw [if_pos hlt] at hmi
    have h2 := Option.some.inj hmi
    have hm : m1 = m := congrArg Prod.fst h2
    subst hm
    exact ⟨hmem, hall, hlt⟩
  · rw [if_neg hlt] at hmi
    exact Option.noConfusion hmi

lemma sampleLoop_stop (fuel : Nat) (t e step : ℤ) (h : ¬ t ≤ e) :
    sampleLoop fuel t e step = [] := by
  cases fuel <;> simp [sampleLoop, h]

lemma sampleLoop_eval :
    ∀ (cnt : Nat) (t e step : ℤ),
      (∀ j : Nat, j < cnt → t + j * step ≤ e) → (e < t + cnt * step) →
      ∀ fuel, cnt ≤ fuel →
        sampleLoop fuel t e step = (List.range cnt).map (fun k : Nat => t + (k : ℤ) * step) := by
  intro cnt
  induction cnt with
  | zero =>
      intro t e step _ hend fuel _
      have hne : ¬ t ≤ e := by
        push_cast at hend
        omega
      rw [sampleLoop_stop _ _ _ _ hne]
      simp
  | succ c ih =>
      intro t e step hall hend fuel hfuel
      obtain ⟨f, rfl⟩ : ∃ f, fuel = f + 1 := ⟨fuel - 1, by omega⟩
      have ht : t ≤ e := by
        have h0 := hall 0 (Nat.succ_pos c)
        simpa using h0
      rw [sampleLoop, if_pos ht]
      rw [ih (t + step) e step ?_ ?_ f (by omega)]
      · rw [List.range_succ_eq_map, List.map_cons, List.map_map]
        congr 1
        · simp
        · apply List.map_congr_left
          intro a _
          simp only [Function.comp_apply, Nat.succ_eq_add_one]
          push_cast
          ring
      · intro j hj
        have h1 := hall (j + 1) (by omega)
        push_cast at h1 ⊢
        nlinarith [h1]
      · push_cast at hend ⊢
        nlinarith [hend]

lemma int_mul_le_of_le_div (window step : ℤ) (hs : 0 < step) (hw : 0 ≤ window)
    {k : Nat} (hk : k ≤ window.toNat / step.toNat) : (k : ℤ) * step ≤ window := by
  have hsn : 0 < step.toNat := by omega
  have hnat : k * step.toNat ≤ window.toNat := (Nat.le_div_iff_mul_le hsn).mp hk
  have hcast : ((k * step.toNat : Nat) : ℤ) ≤ ((window.toNat : Nat) : ℤ) := by
    exact_mod_cast hnat
  push_cast at hcast
  rw [Int.toNat_of_nonneg hw, Int.toNat_of_nonneg hs.le] at hcast
  exact hcast

lemma sampleTimes_closed (start window step : ℤ) (hs : 0 < step) (hw : 0 ≤ window) :
    sampleTimes start window step
      = (List.range (window.toNat / step.toNat + 1)).map
          (fun k : Nat => start + (k : ℤ) * step) := by
  unfold sampleTimes
  have hsn : 0 < step.toNat := by omega
  apply sampleLoop_eval (window.toNat / step.toNat + 1) start (start + window) step ?_ ?_ _
    (le_refl _)
  · intro j hj
    have hj' : j ≤ window.toNat / step.toNat := by omega
    have := int_mul_le_of_le_div window step hs hw hj'
    linarith
  · have h1 : step.toNat * (window.toNat / step.toNat) + window.toNat % step.toNat
        = window.toNat := Nat.div_add_mod _ _
    have h2 : window.toNat % step.toNat < step.toNat := Nat.mod_lt _ hsn
    have h3 : window.toNat < (window.toNat / step.toNat + 1) * step.toNat := by
      calc window.toNat
          = step.toNat * (window.toNat / step.toNat) + window.toNat % step.toNat := h1.symm
        _ < step.toNat * (window.toNat / step.toNat) + step.toNat :=
            Nat.add_lt_add_left h2 _
        _ = (window.toNat / step.toNat + 1) * step.toNat := by ring
    have hcast : ((window.toNat : Nat) : ℤ)
        < (((window.toNat / step.toNat + 1) : Nat) : ℤ) * ((step.toNat : Nat) : ℤ) := by
      exact_mod_cast h3
    rw [Int.toNat_of_nonneg hw, Int.toNat_of_nonneg hs.le] at hcast
    linarith

lemma sampleTimes_nonpos (start window step : ℤ) (hw : window ≤ 0) :
    sampleTimes start window step = if window = 0 then [start] else [] := by
  unfold sampleTimes
  have h0 : window.toNat = 0 := by omega
  rw [h0]
  by_cases hz : window = 0
  · subst hz
    simp [sampleLoop]
  · have hlt : ¬ start ≤ start + window := by omega
    rw [if_neg hz]
    simp [sampleLoop, hlt]

lemma logb_ten_ge_neg_one (d : ℝ) (hd : 0 ≤ d) :
    (-1 : ℝ) ≤ Real.logb 10 (d + 0.1) := by
  have h1 : Real.logb 10 (0.1 : ℝ) = -1 := by
    rw [show (0.1:ℝ) = (10:ℝ)⁻¹ by norm_num, Real.logb_inv,
      Real.logb_self_eq_one (by norm_num)]
  have h2 : Real.logb 10 (0.1 : ℝ) ≤ Real.logb 10 (d + 0.1) := by
    apply Real.logb_le_logb_of_le
    · norm_num
    · norm_num
    · linarith
  linarith [h1 ▸ h2]

lemma isTwo_eq_false_of_isOne (l : TLELine) (h : l.isOne = true) : l.isTwo = false := by
  cases l <;> simp_all [TLELine.isOne, TLELine.isTwo]

lemma parseTLEs_groups_append :
    ∀ (gs : List (TLELine × TLELine × TLELine)) (T : List TLELine),
      (∀ g ∈ gs, wellFormedGroup g) →
      parseTLEs (gs.flatMap tleGroupLines ++ T)
        = gs.map (fun g => { name := some g.1, l1 := g.2.1, l2 := g.2.2 }) ++ parseTLEs T := by
  intro gs
  induction gs with
  | nil =>
      intro T _
      simp
  | cons g rest ih =>
      intro T hwf
      obtain ⟨h1, h2⟩ := hwf g (List.mem_cons_self g rest)
      have hrec := ih T (fun x hx => hwf x (List.mem_cons_of_mem g hx))
      have hflat : (g :: rest).flatMap tleGroupLines ++ T
          = g.1 :: g.2.1 :: g.2.2 :: (rest.flatMap tleGroupLines ++ T) := by
        simp [tleGroupLines]
      have hff : (g.1.isOne && g.2.1.isTwo) = false := by
        rw [isTwo_eq_false_of_isOne g.2.1 h1, Bool.and_false]
      rw [hflat]
      rw [parseTLEs]
      rw [hff]
      simp only [Bool.false_eq_true, if_false, h1, h2, Bool.and_self, if_true]
      rw [hrec]
      simp

/-!
Claim theorems.
-/

/-- Claim C1: for every pair of trajectories with at least one aligned sample
index, the detector's reported miss distance is the minimum over the aligned
indices of the Euclidean distance between the inertial positions, and a
Conjunction record is emitted if and only if that minimum is strictly below
thresholdKm (the boundary at exactly thresholdKm is exclusive). -/
theorem detect_reports_min (A B : List Pos) (h : 0 < min A.length B.length) :
    ∃ m i, m ∈ alignedDists A B ∧ (∀ d ∈ alignedDists A B, m ≤ d) ∧
      ∀ thresholdKm : ℝ,
        detect A B thresholdKm = if m < thresholdKm then some (m, i) else none := by
  have hne : alignedDists A B ≠ [] := by
    intro hnil
    have hlen : (alignedDists A B).length = min A.length B.length := by
      simp [alignedDists]
    rw [hnil] at hlen
    simp at hlen
    omega
  obtain ⟨m, i, heq, hmem, hall⟩ := bestAux_min _ hne
  exact ⟨m, i, hmem, hall, fun t => by simp [detect, heq]⟩

/-- Witness for C1 at a concrete one-sample pair at Euclidean distance 5. -/
theorem detect_reports_min_witness :
    ∃ m i, m ∈ alignedDists [((0:ℝ), (0:ℝ), (0:ℝ))] [((3:ℝ), (4:ℝ), (0:ℝ))] ∧
      (∀ d ∈ alignedDists [((0:ℝ), (0:ℝ), (0:ℝ))] [((3:ℝ), (4:ℝ), (0:ℝ))], m ≤ d) ∧
      ∀ thresholdKm : ℝ,
        detect [((0:ℝ), (0:ℝ), (0:ℝ))] [((3:ℝ), (4:ℝ), (0:ℝ))] thresholdKm
          = if m < thresholdKm then some (m, i) else none :=
  detect_reports_min _ _ (by simp)

/-- Claim C2, counterexample: at altitude 35500 km, which the claim places in
the MEDIUM band (2000 ≤ 35500 < 35786), the classifier returns GEO — the
source's upper band boundary is 35000 km, not 35786 km. -/
theorem classify_band_boundary_counter :
    (classifyOrbitType (some 35500) 1).1 = OrbitType.GEO
      ∧ (2000:ℝ) ≤ 35500 ∧ (35500:ℝ) < 35786 := by
  refine ⟨?_, by norm_num, by norm_num⟩
  unfold classifyOrbitType
  dsimp only
  norm_num

/-- Claim C2, amended: the orbit classifier returns LEO iff the propagated
altitude is below 2000 km, MEO iff it is in [2000, 35000), and GEO iff it is
at least 35000 km — the upper band boundary is 35,000 km. -/
theorem classify_altitude_bands (a meanMotion : ℝ) :
    ((classifyOrbitType (some a) meanMotion).1 = OrbitType.LEO ↔ a < 2000) ∧
    ((classifyOrbitType (some a) meanMotion).1 = OrbitType.MEO ↔ 2000 ≤ a ∧ a < 35000) ∧
    ((classifyOrbitType (some a) meanMotion).1 = OrbitType.GEO ↔ 35000 ≤ a) := by
  rcases lt_or_le a 2000 with h1 | h1
  · have hv : classifyOrbitType (some a) meanMotion = (OrbitType.LEO, a) := by
      unfold classifyOrbitType
      dsimp only
      rw [if_pos h1]
    rw [hv]
    refine ⟨by simp [h1], ?_, ?_⟩ <;> simp
    · intro h2
      linarith
    · linarith
  · rcases lt_or_le a 35000 with h2 | h2
    · have hv : classifyOrbitType (some a) meanMotion = (OrbitType.MEO, a) := by
        unfold classifyOrbitType
        dsimp only
        rw [if_neg (by linarith), if_pos ⟨h1, h2⟩]
      rw [hv]
      refine ⟨?_, by simp [h1, h2], ?_⟩ <;> simp <;> linarith
    · have hv : classifyOrbitType (some a) meanMotion = (OrbitType.GEO, a) := by
        unfold classifyOrbitType
        dsimp only
        rw [if_neg (by linarith), if_neg ?_]
        rintro ⟨-, h3⟩
        linarith
      rw [hv]
      refine ⟨?_, ?_, by simp [h2]⟩ <;> simp
      · linarith
      · intro h3
        linarith

/-- Claim C3, counterexample: with start 0, window 100 and step 30 the source
loop generates [0, 30, 60, 90] and stops — the first timestamp ≥ 100, which
is 120, is never generated, and no generated timestamp reaches the window
end. -/
theorem sampleTimes_overshoot_counter :
    sampleTimes 0 100 30 = [0, 30, 60, 90] ∧ (120 : ℤ) ∉ sampleTimes 0 100 30 ∧
      ∀ x ∈ sampleTimes 0 100 30, x < 100 := by decide

/-- Claim C3, amended: for positive window and step, the sampler generates
exactly the timestamps start + k*step for k = 0 .. floor(window/step) — up to
and including the last timestamp ≤ start + windowDuration; no timestamp past
the window end is ever generated. -/
theorem sampleTimes_stay_in_window (start window step : ℤ) (hs : 0 < step) (hw : 0 < window) :
    sampleTimes start window step
        = (List.range (window.toNat / step.toNat + 1)).map
            (fun k : Nat => start + (k : ℤ) * step)
      ∧ ∀ x ∈ sampleTimes start window step, x ≤ start + window := by
  have hc := sampleTimes_closed start window step hs hw.le
  refine ⟨hc, ?_⟩
  intro x hx
  rw [hc] at hx
  rcases List.mem_map.mp hx with ⟨k, hk, rfl⟩
  have hk' : k ≤ window.toNat / step.toNat := by
    have := List.mem_range.mp hk
    omega
  have := int_mul_le_of_le_div window step hs hw.le hk'
  linarith

/-- Witness for the amended C3 at start 0, window 100, step 30. -/
theorem sampleTimes_stay_in_window_witness :
    (sampleTimes 0 100 30
        = (List.range ((100:ℤ).toNat / (30:ℤ).toNat + 1)).map
            (fun k : Nat => 0 + (k : ℤ) * 30)
      ∧ ∀ x ∈ sampleTimes 0 100 30, x ≤ 0 + 100) :=
  sampleTimes_stay_in_window 0 100 30 (by decide) (by decide)

/-- Claim C4, counterexample: with the non-positive window duration 0 the
engine does not reject the request — it generates the sample timestamp 0 and
runs the pairwise conjunction search, even emitting a record for two
coincident satellites at threshold 5 km. -/
theorem runAnalysis_no_validation_counter :
    sampleTimes 0 0 30000 = [0] ∧
      (runAnalysis (fun _ _ => some ((0:ℝ), (0:ℝ), (0:ℝ))) 2 0 30000 5).2
        = [(0, 1, 0, 0)] := by
  have hst : sampleTimes 0 0 30000 = [0] := by decide
  refine ⟨hst, ?_⟩
  have hd : dist3 (0 : Pos) (0 : Pos) = 0 := by
    unfold dist3
    norm_num
  unfold runAnalysis
  rw [hst]
  simp [conjunctionsOf, detect, alignedDists, bestAux, hd, List.range_succ,
    List.filterMap_cons]

/-- Claim C4, amended: the engine performs no validation of the window or step
durations and never raises a configuration error; a request with non-positive
windowDuration is processed normally — window 0 yields the single sample
timestamp 0 and a full pairwise conjunction search over it, negative windows
yield an empty sample list, again searched without error. -/
theorem runAnalysis_no_validation (propagate : Nat → ℤ → Option Pos) (satCount : Nat)
    (window step : ℤ) (thresholdKm : ℝ) (hs : 0 < step) (hw : window ≤ 0) :
    (runAnalysis propagate satCount window step thresholdKm).1
        = (if window = 0 then [0] else [])
      ∧ (runAnalysis propagate satCount window step thresholdKm).2
          = conjunctionsOf ((List.range satCount).map (fun i =>
              (if window = 0 then ([0] : List ℤ) else []).filterMap (propagate i)))
              thresholdKm := by
  unfold runAnalysis
  rw [sampleTimes_nonpos 0 window step hw]
  exact ⟨rfl, rfl⟩

/-- Witness for the amended C4 at window 0, step 1, no satellites. -/
theorem runAnalysis_no_validation_witness :
    ((runAnalysis (fun _ _ => none) 0 0 1 0).1 = (if (0:ℤ) = 0 then [0] else [])
      ∧ (runAnalysis (fun _ _ => none) 0 0 1 0).2
          = conjunctionsOf ((List.range 0).map (fun i =>
              (if (0:ℤ) = 0 then ([0] : List ℤ) else []).filterMap
                ((fun _ _ => none : Nat → ℤ → Option Pos) i))) 0) :=
  runAnalysis_no_validation (fun _ _ => none) 0 0 1 0 (by decide) (by decide)

/-- Claim C5, counterexample: the two risk-level discretizations do not share
thresholds — a pairwise probability of 0.65 (energy 0) is CRITICAL under the
NEO thresholds (0.65 > 0.6) but only HIGH under the debris–satellite
collision thresholds (0.65 ≤ 0.8). -/
theorem risk_level_thresholds_counter :
    meteorRiskLevel 0.65 0 = RiskLevel.CRITICAL ∧
      debrisRiskLevel 0.65 = RiskLevel.HIGH ∧
      meteorRiskLevel 0.65 0 ≠ debrisRiskLevel 0.65 := by
  have h1 : meteorRiskLevel 0.65 0 = RiskLevel.CRITICAL := by
    unfold meteorRiskLevel
    rw [if_pos (Or.inl (by norm_num))]
  have h2 : debrisRiskLevel 0.65 = RiskLevel.HIGH := by
    unfold debrisRiskLevel
    rw [if_neg (by norm_num), if_pos (by norm_num)]
  refine ⟨h1, h2, ?_⟩
  rw [h1, h2]
  simp

/-- Claim C5, amended: NEO impact-risk levels use probability thresholds
0.6 / 0.3 / 0.1 combined with energy thresholds 100 / 10 / 1 MT, while the
debris–satellite pairwise collision-risk levels use their own probability-only
thresholds 0.8 / 0.6 / 0.3; the two discretizations are distinct. -/
theorem risk_level_thresholds (p e : ℝ) :
    ((meteorRiskLevel p e = RiskLevel.CRITICAL ↔ (0.6 < p ∨ 100 < e)) ∧
     (meteorRiskLevel p e = RiskLevel.HIGH
        ↔ (p ≤ 0.6 ∧ e ≤ 100) ∧ (0.3 < p ∨ 10 < e)) ∧
     (meteorRiskLevel p e = RiskLevel.MEDIUM
        ↔ (p ≤ 0.3 ∧ e ≤ 10) ∧ (0.1 < p ∨ 1 < e)) ∧
     (meteorRiskLevel p e = RiskLevel.LOW ↔ p ≤ 0.1 ∧ e ≤ 1)) ∧
    ((debrisRiskLevel p = RiskLevel.CRITICAL ↔ 0.8 < p) ∧
     (debrisRiskLevel p = RiskLevel.HIGH ↔ 0.6 < p ∧ p ≤ 0.8) ∧
     (debrisRiskLevel p = RiskLevel.MEDIUM ↔ 0.3 < p ∧ p ≤ 0.6) ∧
     (debrisRiskLevel p = RiskLevel.LOW ↔ p ≤ 0.3)) := by
  constructor
  · unfold meteorRiskLevel
    split_ifs with h1 h2 h3
    all_goals push_neg at *
    all_goals refine ⟨?_, ?_, ?_, ?_⟩
    all_goals simp
    all_goals intros
    all_goals
      first
        | linarith
        | tauto
        | (rcases h1 with h | h <;> linarith)
        | (rcases h2 with h | h <;> linarith)
        | (rcases h3 with h | h <;> linarith)
  · unfold debrisRiskLevel
    split_ifs with h1 h2 h3
    all_goals push_neg at *
    all_goals refine ⟨?_, ?_, ?_, ?_⟩
    all_goals simp
    all_goals intros
    all_goals
      first
        | linarith
        | tauto

/-- Claim C6: for all non-negative inputs the heuristic risk functions are
bounded — Earth-impact probability in [0, 0.95], satellite-collision risk in
[0, 0.8], and debris Earth-impact/re-entry risk in [0, 1] on every propagation
outcome. -/
theorem risk_functions_bounded (miss d v ecc meanMotion : ℝ)
    (hm : 0 ≤ miss) (hd : 0 ≤ d) (hv : 0 ≤ v) (he : 0 ≤ ecc) (hn : 0 ≤ meanMotion) :
    (0 ≤ calculateEarthImpactProbability miss d v
       ∧ calculateEarthImpactProbability miss d v ≤ 0.95) ∧
    (0 ≤ calculateSatelliteCollisionRisk miss d v
       ∧ calculateSatelliteCollisionRisk miss d v ≤ 0.8) ∧
    (∀ outcome : PropOutcome, 0 ≤ calculateEarthImpactRisk outcome ecc meanMotion
       ∧ calculateEarthImpactRisk outcome ecc meanMotion ≤ 1) := by
  refine ⟨⟨?_, ?_⟩, ⟨?_, ?_⟩, ?_⟩
  · unfold calculateEarthImpactProbability
    dsimp only
    apply le_min ?_ (by norm_num)
    split_ifs with h1
    · have hL := logb_ten_ge_neg_one d hd
      have hA : (0:ℝ) ≤ max 0 (1 - miss * 149597871 / (6371 * 10)) := le_max_left 0 _
      have hB : (0:ℝ) ≤ 1 + Real.logb 10 (d + 0.1) * 0.1 := by linarith
      have hC : (0:ℝ) ≤ 1 + v / 100 := by linarith
      exact mul_nonneg (mul_nonneg hA hB) hC
    · exact le_refl 0
  · exact min_le_right _ _
  · unfold calculateSatelliteCollisionRisk
    dsimp only
    split_ifs with h1
    · apply le_min ?_ (by norm_num)
      have hB : (0:ℝ) ≤ 1 + v / 50 := by linarith
      have hC : (0:ℝ) ≤ max 0 (1 - miss * 149597871 / 50000) := le_max_left 0 _
      exact mul_nonneg (mul_nonneg (mul_nonneg (by norm_num) (by linarith)) hB) hC
    · exact le_refl 0
  · unfold calculateSatelliteCollisionRisk
    dsimp only
    split_ifs with h1
    · exact min_le_right _ _
    · norm_num
  · intro outcome
    cases outcome with
    | ok altitude =>
        unfold calculateEarthImpactRisk
        dsimp only
        constructor
        · apply le_min ?_ (by norm_num)
          have hband : (0:ℝ) ≤ (if altitude < 200 then (0.8:ℝ)
              else if altitude < 400 then 0.6 else if altitude < 800 then 0.4
              else if altitude < 1500 then 0.2 else 0) := by
            split_ifs <;> norm_num
          have hmin : (0:ℝ) ≤ min (meanMotion * 0.001) 0.2 :=
            le_min (by linarith) (by norm_num)
          have hecc : (0:ℝ) ≤ ecc * 0.3 := by linarith
          linarith
        · exact min_le_right _ _
    | invalid =>
        unfold calculateEarthImpactRisk
        norm_num
    | thrown =>
        unfold calculateEarthImpactRisk
        norm_num

/-- Witness for C6 with every input zero. -/
theorem risk_functions_bounded_witness :
    (0:ℝ) ≤ 0 ∧
    ((0 ≤ calculateEarthImpactProbability 0 0 0
       ∧ calculateEarthImpactProbability 0 0 0 ≤ 0.95) ∧
    (0 ≤ calculateSatelliteCollisionRisk 0 0 0
       ∧ calculateSatelliteCollisionRisk 0 0 0 ≤ 0.8) ∧
    (∀ outcome : PropOutcome, 0 ≤ calculateEarthImpactRisk outcome 0 0
       ∧ calculateEarthImpactRisk outcome 0 0 ≤ 1)) :=
  ⟨le_refl 0, risk_functions_bounded 0 0 0 0 0 (le_refl 0) (le_refl 0) (le_refl 0)
    (le_refl 0) (le_refl 0)⟩

/-- Claim C7: the detector is symmetric in its trajectory arguments — the
whole result, and in particular the reported miss distance, is unchanged when
A and B are swapped — and an emitted miss distance is at most the Euclidean
distance at every individual aligned sample index. -/
theorem detect_symm_and_le (A B : List Pos) (t : ℝ) :
    detect A B t = detect B A t ∧
      ∀ m i, detect A B t = some (m, i) → ∀ d ∈ alignedDists A B, m ≤ d := by
  constructor
  · unfold detect
    rw [alignedDists_comm]
  · intro m i hmi d hd
    exact (detect_some_min A B t m i hmi).2.1 d hd

/-- Witness for C7 at a concrete one-sample pair at distance 5 and
threshold 6. -/
theorem detect_symm_and_le_witness :
    detect [((0:ℝ), (0:ℝ), (0:ℝ))] [((3:ℝ), (4:ℝ), (0:ℝ))] 6
        = detect [((3:ℝ), (4:ℝ), (0:ℝ))] [((0:ℝ), (0:ℝ), (0:ℝ))] 6 ∧
      ∀ d ∈ alignedDists [((0:ℝ), (0:ℝ), (0:ℝ))] [((3:ℝ), (4:ℝ), (0:ℝ))], (5:ℝ) ≤ d := by
  have h := detect_symm_and_le [((0:ℝ), (0:ℝ), (0:ℝ))] [((3:ℝ), (4:ℝ), (0:ℝ))] 6
  refine ⟨h.1, h.2 5 0 ?_⟩
  have h5 : dist3 ((0:ℝ), (0:ℝ), (0:ℝ)) ((3:ℝ), (4:ℝ), (0:ℝ)) = 5 := by
    unfold dist3
    rw [show ((0:ℝ) - 3) * ((0:ℝ) - 3) + ((0:ℝ) - 4) * ((0:ℝ) - 4)
          + ((0:ℝ) - 0) * ((0:ℝ) - 0) = 5 ^ 2 by norm_num]
    exact Real.sqrt_sq (by norm_num)
  simp [detect, alignedDists, bestAux, h5]
  refine ⟨?_, ?_⟩
  · show dist3 ((0:ℝ), (0:ℝ), (0:ℝ)) ((3:ℝ), (4:ℝ), (0:ℝ)) < 6
    rw [h5]
    norm_num
  · show dist3 ((0:ℝ), (0:ℝ), (0:ℝ)) ((3:ℝ), (4:ℝ), (0:ℝ)) = 5
    exact h5

/-- Claim C8: on propagation failure the classifier falls back to the period
2*pi/meanMotion minutes and classifies LEO for periods below 200, MEO for
[200, 1200), GEO for at least 1200; in particular a mean motion giving a
95-minute period classifies as LEO via this fallback. -/
theorem classify_fallback_period_bands (meanMotion : ℝ) :
    (((classifyOrbitType none meanMotion).1 = OrbitType.LEO
        ↔ 2 * Real.pi / meanMotion < 200) ∧
     ((classifyOrbitType none meanMotion).1 = OrbitType.MEO
        ↔ 200 ≤ 2 * Real.pi / meanMotion ∧ 2 * Real.pi / meanMotion < 1200) ∧
     ((classifyOrbitType none meanMotion).1 = OrbitType.GEO
        ↔ 1200 ≤ 2 * Real.pi / meanMotion)) ∧
    (classifyOrbitType none (2 * Real.pi / 95)).1 = OrbitType.LEO := by
  constructor
  · set p := 2 * Real.pi / meanMotion with hp
    rcases lt_or_le p 200 with h1 | h1
    · have hv : classifyOrbitType none meanMotion = (OrbitType.LEO, 500) := by
        unfold classifyOrbitType
        dsimp only
        rw [← hp, if_pos h1]
      rw [hv]
      refine ⟨by simp [h1], ?_, ?_⟩ <;> simp
      · intro h2
        linarith
      · linarith
    · rcases lt_or_le p 1200 with h2 | h2
      · have hv : classifyOrbitType none meanMotion = (OrbitType.MEO, 20000) := by
          unfold classifyOrbitType
          dsimp only
          rw [← hp, if_neg (by linarith), if_pos h2]
        rw [hv]
        refine ⟨?_, by simp [h1, h2], ?_⟩ <;> simp <;> linarith
      · have hv : classifyOrbitType none meanMotion = (OrbitType.GEO, 35786) := by
          unfold classifyOrbitType
          dsimp only
          rw [← hp, if_neg (by linarith), if_neg (by linarith)]
        rw [hv]
        refine ⟨?_, ?_, by simp [h2]⟩ <;> simp
        · linarith
        · intro h3
          linarith
  · have hpi : 2 * Real.pi ≠ 0 := by
      have := Real.pi_ne_zero
      positivity
    have h95 : 2 * Real.pi / (2 * Real.pi / 95) = 95 := div_div_cancel₀ hpi
    unfold classifyOrbitType
    dsimp only
    rw [h95]
    norm_num

/-- Claim C9: parsing the concatenation of N well-formed 3-line groups with a
trailing block that parses to no records yields exactly the N element-set
records of the groups, in input order. -/
theorem parseTLEs_wellformed_groups (gs : List (TLELine × TLELine × TLELine))
    (T : List TLELine) (hwf : ∀ g ∈ gs, wellFormedGroup g) (hT : parseTLEs T = []) :
    parseTLEs (gs.flatMap tleGroupLines ++ T)
        = gs.map (fun g => { name := some g.1, l1 := g.2.1, l2 := g.2.2 }) ∧
      (parseTLEs (gs.flatMap tleGroupLines ++ T)).length = gs.length := by
  have h := parseTLEs_groups_append gs T hwf
  rw [hT, List.append_nil] at h
  refine ⟨h, ?_⟩
  rw [h]
  simp

/-- Witness for C9: two well-formed groups followed by a dangling line-1
malformed trailer parse to exactly the two records. -/
theorem parseTLEs_wellformed_groups_witness :
    parseTLEs ([(TLELine.nm 0, TLELine.one 1, TLELine.two 2),
                (TLELine.nm 3, TLELine.one 4, TLELine.two 5)].flatMap tleGroupLines
        ++ [TLELine.one 6])
        = [{ name := some (TLELine.nm 0), l1 := TLELine.one 1, l2 := TLELine.two 2 },
           { name := some (TLELine.nm 3), l1 := TLELine.one 4, l2 := TLELine.two 5 }] ∧
      (parseTLEs ([(TLELine.nm 0, TLELine.one 1, TLELine.two 2),
                   (TLELine.nm 3, TLELine.one 4, TLELine.two 5)].flatMap tleGroupLines
          ++ [TLELine.one 6])).length = 2 :=
  parseTLEs_wellformed_groups _ _ (by decide) (by simp [parseTLEs])

/-- Claim C10: when at least one trajectory of a pair has no successfully
propagated samples, the detector emits no Conjunction at any threshold — the
tracked minimum never leaves its initial infinite state. -/
theorem detect_no_samples_none (A B : List Pos) (t : ℝ) (h : min A.length B.length = 0) :
    detect A B t = none := by
  have hnil : alignedDists A B = [] := by
    apply List.length_eq_zero.mp
    simp [alignedDists, h]
  simp [detect, hnil, bestAux]

/-- Witness for C10: an empty trajectory against a one-sample trajectory at a
huge threshold still yields no record. -/
theorem detect_no_samples_none_witness :
    detect [] [((0:ℝ), (0:ℝ), (0:ℝ))] 1000000 = none :=
  detect_no_samples_none _ _ _ (by simp)

end SpaceHack
